import Mathlib

/-!
Verification of the Remote Data Gateway (`src/lib/actions.ts`).

The file shallowly embeds the gateway: JavaScript JSON-like values become the
inductive `JVal`, the shared `GraphQLClient` becomes a record holding the
endpoint URL and the mutable header set (threaded explicitly through each
operation), and the two network collaborators (`uploadImage`'s fetch and
`client.request`) become oracles packaged in `Env`.  Each exported operation
of `actions.ts` is translated into a function from the environment, the
current client state and its arguments to an `OpResult` recording the final
client state, the upload calls made, the GraphQL requests issued (with the
header set at the moment of issue) and the settled outcome of the returned
promise.
-/

set_option autoImplicit false

namespace Flexibble

/-- A JSON-like value as assembled by `actions.ts` for request vars and
received from the upload / request collaborators.  `jnull` stands for the
JavaScript `null` (and, where the distinction is unobservable to the claims,
for `undefined` as a transmitted value). -/
inductive JVal where
  | jnull : JVal
  | jstr : String → JVal
  | jnum : Nat → JVal
  | jobj : List (String × JVal) → JVal

/-- JavaScript truthiness restricted to the values the gateway inspects
(`imageUrl.url`): `null` and the empty string are falsy, any other string and
any object are truthy. -/
def JVal.truthy : JVal → Bool
  | .jnull => false
  | .jstr s => s ≠ ""
  | .jnum n => n ≠ 0
  | .jobj _ => true

/-- `=== null` check from `makeGraphQLRequest`. -/
def JVal.isNull : JVal → Bool
  | .jnull => true
  | _ => false

/-- First-occurrence lookup in a JavaScript-object field list
(`obj.key` member access; `none` models `undefined`). -/
def lookupJ : List (String × JVal) → String → Option JVal
  | [], _ => none
  | kv :: rest, k => if kv.1 = k then some kv.2 else lookupJ rest k

/-- Member access `v.k` on a JSON value: `undefined` (`none`) unless `v` is an
object with the field. -/
def jget (v : JVal) (k : String) : Option JVal :=
  match v with
  | .jobj fields => lookupJ fields k
  | _ => none

/-- Truthiness of a possibly-`undefined` member access. -/
def jtruthy : Option JVal → Bool
  | none => false
  | some v => v.truthy

/-- `{...fs, k: v}` when `k` already occurs in `fs`: the JavaScript spread
with an override keeps the key at its original position and replaces its
value. -/
def setField (fs : List (String × JVal)) (k : String) (v : JVal) : List (String × JVal) :=
  fs.map (fun kv => if kv.1 = k then (k, v) else kv)

/-- The untyped `GraphQLVariables` record (key insertion order preserved). -/
def Variables : Type := List (String × JVal)

/-- `Option String` argument transmitted as a JSON value (`null`
when absent). -/
def jOfOpt : Option String → JVal
  | none => .jnull
  | some s => .jstr s

/-- `Option Nat` argument transmitted as a JSON value. -/
def jOfOptNum : Option Nat → JVal
  | none => .jnull
  | some n => .jnum n

/-! ### The shared transport -/

/-- Is a header key present in the header set? -/
def hasKey (hs : List (String × String)) (k : String) : Bool :=
  hs.any (fun kv => kv.1 = k)

/-- First value bound to a header key. -/
def findVal : List (String × String) → String → Option String
  | [], _ => none
  | kv :: rest, k => if kv.1 = k then some kv.2 else findVal rest k

/-- `headers[key] = value` on the transport's header object: replace the
value of an existing key in place, otherwise append the new pair. -/
def setHeaderEntries (hs : List (String × String)) (k v : String) : List (String × String) :=
  if hasKey hs k then hs.map (fun kv => if kv.1 = k then (k, v) else kv)
  else hs ++ [(k, v)]

/-- The shared `GraphQLClient` from `graphql-request`: endpoint URL plus the
process-wide mutable header set. -/
structure GraphQLClient where
  url : String
  headers : List (String × String)

/-- `client.setHeader(key, value)`.  The `graphql-request` dependency is not
part of this repository; per its documented behaviour ("attach a header to
the client; all subsequent requests will have this header") the call sets the
one given header on the client's header object, leaving previously attached
headers in place. -/
def GraphQLClient.setHeader (c : GraphQLClient) (k v : String) : GraphQLClient :=
  { c with headers := setHeaderEntries c.headers k v }

/-! ### Configuration (non-production branch of the environment switch) -/

def apiUrl : String := "http://127.0.0.1:4000/graphql"

def apiKey : String := "letmein"

def serverUrl : String := "http://localhost:3000"

/-- Modelled from the spec: the named GraphQL operation documents are imported
from `@/graphql`, which is not under `src/`; the spec treats them as opaque
named operations, so they are distinct opaque strings here. -/
def projectsQuery : String := "projectsQuery"

def createProjectMutation : String := "createProjectMutation"

def updateProjectMutation : String := "updateProjectMutation"

def deleteProjectMutation : String := "deleteProjectMutation"

def getProjectByIdQuery : String := "getProjectByIdQuery"

def getProjectsOfUserQuery : String := "getProjectsOfUserQuery"

def getUserQuery : String := "getUserQuery"

def createUserMutation : String := "createUserMutation"

/-! ### The environment: network collaborators as oracles -/

/-- The two network collaborators of the gateway.  `upload` is the parsed
JSON response of `uploadImage(path)` (`Except.error` when its `fetch`
throws); `request` is the response object of `client.request(query,
vars)` per the source's `GraphQLResponse` declaration (`Except.error`
when the request throws). -/
structure Env where
  upload : String → Except String JVal
  request : String → Variables → Except String JVal

/-- A GraphQL request at the moment it is issued: the operation document, the
transmitted vars, and the transport's header set at that moment. -/
structure IssuedRequest where
  query : String
  vars : Variables
  headers : List (String × String)

/-- Observable result of one gateway operation: the client state it leaves
behind, the `uploadImage` calls it made, the GraphQL requests it issued, and
the settled outcome of its promise (`Except.ok none` is a promise resolving
with `undefined`, `Except.error` a rejection). -/
structure OpResult where
  client : GraphQLClient
  uploads : List String
  issued : List IssuedRequest
  outcome : Except String (Option JVal)

/-! ### The operations of `actions.ts` -/

/-- The normalization step of `makeGraphQLRequest`: a top-level `category`
field that is `=== null` is coerced to the empty string before
transmission. -/
def fixCategory (vars : Variables) : Variables :=
  vars.map (fun kv =>
    if kv.1 = "category" then (if kv.2.isNull then ("category", JVal.jstr "") else kv) else kv)

/-- `makeGraphQLRequest`: coerce a top-level `category` field that is
`=== null` to the empty string, issue the request, and return
`response.data` (per the source's `GraphQLResponse<T>` declaration) or
rethrow the same error. -/
def makeGraphQLRequest (env : Env) (c : GraphQLClient) (query : String)
    (vars : Variables) : OpResult :=
  match env.request query (fixCategory vars) with
  | .ok resp => ⟨c, [], [⟨query, fixCategory vars, c.headers⟩], .ok (jget resp "data")⟩
  | .error e => ⟨c, [], [⟨query, fixCategory vars, c.headers⟩], .error e⟩

/-- `fetchAllProjects(category?, endcursor?)`: set the `x-api-key` header,
build `{category: category || "", endcursor}` and perform the request; its
`catch` logs and rethrows the same error, leaving the outcome unchanged. -/
def fetchAllProjects (env : Env) (c : GraphQLClient)
    (category endcursor : Option String) : OpResult :=
  let c1 := c.setHeader "x-api-key" apiKey
  let vars : Variables :=
    [("category", JVal.jstr (category.getD "")), ("endcursor", jOfOpt endcursor)]
  makeGraphQLRequest env c1 projectsQuery vars

/-- Modelled from the spec: `ProjectForm` lives in `common.types.ts`, which is
not under `src/`; §3 lists a project's caller-supplied fields as title,
description, image, category and the live-site/github links. -/
structure ProjectForm where
  title : String
  description : String
  image : String
  liveSiteUrl : String
  githubUrl : String
  category : String

/-- The field list produced by spreading a `ProjectForm` (`{...form}`). -/
def ProjectForm.toFields (f : ProjectForm) : List (String × JVal) :=
  [("title", .jstr f.title), ("description", .jstr f.description),
   ("image", .jstr f.image), ("liveSiteUrl", .jstr f.liveSiteUrl),
   ("githubUrl", .jstr f.githubUrl), ("category", .jstr f.category)]

/-- `createNewProject(form, creatorId, token)`: upload the image first; only
on a truthy `url` set the bearer header and submit the create mutation with
the uploaded URL and creator link spliced into the input; otherwise the
function body ends without a `return`, so the promise resolves with
`undefined`. -/
def createNewProject (env : Env) (c : GraphQLClient) (form : ProjectForm)
    (creatorId token : String) : OpResult :=
  match env.upload form.image with
  | .error e => ⟨c, [form.image], [], .error e⟩
  | .ok imageUrl =>
    if jtruthy (jget imageUrl "url") then
      let c1 := c.setHeader "Authorization" ("Bearer " ++ token)
      let input := JVal.jobj (setField form.toFields "image" ((jget imageUrl "url").getD .jnull)
        ++ [("createdBy", JVal.jobj [("link", JVal.jstr creatorId)])])
      let r := makeGraphQLRequest env c1 createProjectMutation [("input", input)]
      { r with uploads := [form.image] }
    else
      ⟨c, [form.image], [], .ok none⟩

/-- Lowercase Latin letter, the `[a-z]` character class. -/
def isLowerAZ (c : Char) : Bool := 'a' ≤ c && c ≤ 'z'

/-- Character-list prefix test used to implement the anchored regex. -/
def listStarts : List Char → List Char → Bool
  | [], _ => true
  | _ :: _, [] => false
  | p :: ps, c :: cs => p == c && listStarts ps cs

/-- `isBase64DataURL(value)`: the test of `/^data:image\/[a-z]+;base64,/`.
As `;` is not in `[a-z]`, the regex matches exactly when the string starts
with `data:image/`, followed by a nonempty run of lowercase letters, followed
immediately by `;base64,`. -/
def isBase64DataURL (value : String) : Bool :=
  let cs := value.data
  listStarts "data:image/".data cs &&
  (let rest := cs.drop 11
   !((rest.takeWhile isLowerAZ).isEmpty) &&
   listStarts ";base64,".data (rest.dropWhile isLowerAZ))

/-- `updateProject(form, projectId, token)`: when `form.image` matches the
base64 data-URL pattern, upload it and, on a truthy `url`, replace the spread
form's image with the uploaded URL (an upload throw propagates before any
header is set); then set the bearer header and submit the update mutation
with `{id, input}`.  The non-matching and falsy-`url` branches repeat the
shared tail of the source because the upload throw exits early here. -/
def updateProject (env : Env) (c : GraphQLClient) (form : ProjectForm)
    (projectId token : String) : OpResult :=
  let updatedForm := form.toFields
  if isBase64DataURL form.image then
    match env.upload form.image with
    | .error e => ⟨c, [form.image], [], .error e⟩
    | .ok imageUrl =>
      let updatedForm2 :=
        if jtruthy (jget imageUrl "url") then
          setField updatedForm "image" ((jget imageUrl "url").getD .jnull)
        else updatedForm
      let c1 := c.setHeader "Authorization" ("Bearer " ++ token)
      let vars : Variables := [("id", JVal.jstr projectId), ("input", JVal.jobj updatedForm2)]
      let r := makeGraphQLRequest env c1 updateProjectMutation vars
      { r with uploads := [form.image] }
  else
    let c1 := c.setHeader "Authorization" ("Bearer " ++ token)
    let vars : Variables := [("id", JVal.jstr projectId), ("input", JVal.jobj updatedForm)]
    makeGraphQLRequest env c1 updateProjectMutation vars

/-- `deleteProject(id, token)`. -/
def deleteProject (env : Env) (c : GraphQLClient) (id token : String) : OpResult :=
  let c1 := c.setHeader "Authorization" ("Bearer " ++ token)
  makeGraphQLRequest env c1 deleteProjectMutation [("id", JVal.jstr id)]

/-- `getProjectDetails(id)`. -/
def getProjectDetails (env : Env) (c : GraphQLClient) (id : String) : OpResult :=
  let c1 := c.setHeader "x-api-key" apiKey
  makeGraphQLRequest env c1 getProjectByIdQuery [("id", JVal.jstr id)]

/-- `createUser(name, email, avatarUrl)`. -/
def createUser (env : Env) (c : GraphQLClient) (name email avatarUrl : String) : OpResult :=
  let c1 := c.setHeader "x-api-key" apiKey
  let input := JVal.jobj [("name", JVal.jstr name), ("email", JVal.jstr email),
    ("avatarUrl", JVal.jstr avatarUrl)]
  makeGraphQLRequest env c1 createUserMutation [("input", input)]

/-- `getUserProjects(id, last?)`. -/
def getUserProjects (env : Env) (c : GraphQLClient) (id : String) (last : Option Nat) : OpResult :=
  let c1 := c.setHeader "x-api-key" apiKey
  makeGraphQLRequest env c1 getProjectsOfUserQuery
    [("id", JVal.jstr id), ("last", jOfOptNum last)]

/-- `getUser(email)`. -/
def getUser (env : Env) (c : GraphQLClient) (email : String) : OpResult :=
  let c1 := c.setHeader "x-api-key" apiKey
  makeGraphQLRequest env c1 getUserQuery [("email", JVal.jstr email)]

/-! ### Helper lemmas -/

/-- The outcome a single request settles with: the response's `data` member
on success, the same thrown error on failure. -/
def reqOutcome (env : Env) (query : String) (vars : Variables) :
    Except String (Option JVal) :=
  match env.request query vars with
  | .ok resp => .ok (jget resp "data")
  | .error e => .error e

@[simp]
theorem fixCategory_nil : fixCategory [] = [] := rfl

@[simp]
theorem fixCategory_cons (kv : String × JVal) (rest : Variables) :
    fixCategory (kv :: rest) =
      (if kv.1 = "category" then (if kv.2.isNull then ("category", JVal.jstr "") else kv) else kv)
        :: fixCategory rest := rfl

@[simp]
theorem makeGraphQLRequest_client (env : Env) (c : GraphQLClient) (q : String) (vs : Variables) :
    (makeGraphQLRequest env c q vs).client = c := by
  unfold makeGraphQLRequest
  cases env.request q (fixCategory vs) <;> rfl

@[simp]
theorem makeGraphQLRequest_uploads (env : Env) (c : GraphQLClient) (q : String) (vs : Variables) :
    (makeGraphQLRequest env c q vs).uploads = [] := by
  unfold makeGraphQLRequest
  cases env.request q (fixCategory vs) <;> rfl

@[simp]
theorem makeGraphQLRequest_issued (env : Env) (c : GraphQLClient) (q : String) (vs : Variables) :
    (makeGraphQLRequest env c q vs).issued = [⟨q, fixCategory vs, c.headers⟩] := by
  unfold makeGraphQLRequest
  cases env.request q (fixCategory vs) <;> rfl

@[simp]
theorem makeGraphQLRequest_outcome (env : Env) (c : GraphQLClient) (q : String) (vs : Variables) :
    (makeGraphQLRequest env c q vs).outcome = reqOutcome env q (fixCategory vs) := by
  unfold makeGraphQLRequest reqOutcome
  cases env.request q (fixCategory vs) <;> rfl

theorem findVal_map_update (hs : List (String × String)) (k v : String) :
    findVal (hs.map (fun kv => if kv.1 = k then (k, v) else kv)) k
      = if hasKey hs k then some v else none := by
  induction hs with
  | nil => rfl
  | cons a t ih =>
    by_cases h : a.1 = k
    · simp [findVal, hasKey, h]
    · simp only [List.map_cons, if_neg h, findVal, ih]
      simp only [hasKey, List.any_cons, decide_eq_false h, Bool.false_or]

theorem findVal_append_single (hs : List (String × String)) (k v : String)
    (h : hasKey hs k = false) : findVal (hs ++ [(k, v)]) k = some v := by
  induction hs with
  | nil => simp [findVal]
  | cons a t ih =>
    simp only [hasKey, List.any_cons, Bool.or_eq_false_iff, decide_eq_false_iff_not] at h
    simp only [List.cons_append, findVal, if_neg h.1]
    exact ih (by simpa [hasKey] using h.2)

/-- Setting a header makes it present with the set value. -/
theorem findVal_setHeaderEntries_self (hs : List (String × String)) (k v : String) :
    findVal (setHeaderEntries hs k v) k = some v := by
  unfold setHeaderEntries
  by_cases h : hasKey hs k
  · simp [h, findVal_map_update]
  · simp only [h, if_neg, Bool.false_eq_true, if_false]
    exact findVal_append_single hs k v (by simpa using h)

/-- Setting one header preserves every entry with a different key. -/
theorem mem_setHeaderEntries_of_ne (hs : List (String × String)) (k v : String)
    (p : String × String) (hp : p ∈ hs) (hne : p.1 ≠ k) :
    p ∈ setHeaderEntries hs k v := by
  unfold setHeaderEntries
  by_cases h : hasKey hs k
  · simp only [h, if_true]
    exact List.mem_map.mpr ⟨p, hp, by simp [hne]⟩
  · simp only [h, Bool.false_eq_true, if_false]
    exact List.mem_append_left _ hp

/-- A spread override of one field leaves lookups of all other keys
unchanged. -/
theorem lookupJ_setField_ne (fs : List (String × JVal)) (k k1 : String) (v : JVal)
    (hne : k1 ≠ k) : lookupJ (setField fs k v) k1 = lookupJ fs k1 := by
  induction fs with
  | nil => rfl
  | cons a t ih =>
    by_cases h : a.1 = k
    · have hk1 : ¬ a.1 = k1 := fun hh => hne (h.symm.trans hh).symm
      simp only [setField, List.map_cons, if_pos h, lookupJ, if_neg (Ne.symm hne), if_neg hk1]
      simpa [setField] using ih
    · simp only [setField, List.map_cons, if_neg h, lookupJ]
      by_cases h1 : a.1 = k1
      · simp [h1]
      · simp only [if_neg h1]
        simpa [setField] using ih

/-- Looking up the overridden field itself yields the new value whenever the
key occurs in the list. -/
theorem lookupJ_setField_self (fs : List (String × JVal)) (k : String) (v : JVal)
    (h : lookupJ fs k ≠ none) : lookupJ (setField fs k v) k = some v := by
  induction fs with
  | nil => simp [lookupJ] at h
  | cons a t ih =>
    by_cases ha : a.1 = k
    · simp [setField, lookupJ, ha]
    · simp only [lookupJ, if_neg ha] at h
      simp only [setField, List.map_cons, if_neg ha, lookupJ, if_neg ha]
      simpa [setField] using ih h

/-! ### Concrete fixtures used by witnesses and counterexamples -/

/-- Environment whose upload endpoint answers `{}` (no `url`) and whose
GraphQL endpoint always answers `{}`. -/
def envW : Env := ⟨fun _ => Except.ok (JVal.jobj []), fun _ _ => Except.ok (JVal.jobj [])⟩

/-- Environment whose upload endpoint answers `{url: "https://x/y.png"}`. -/
def envU : Env :=
  ⟨fun _ => Except.ok (JVal.jobj [("url", JVal.jstr "https://x/y.png")]),
   fun _ _ => Except.ok (JVal.jobj [])⟩

/-- Environment whose upload fetch throws. -/
def envE : Env := ⟨fun _ => Except.error "network down", fun _ _ => Except.ok (JVal.jobj [])⟩

/-- The client as configured at process start: endpoint URL, no headers. -/
def clientStart : GraphQLClient := ⟨apiUrl, []⟩

/-- A form whose image is an inline base64 data URL. -/
def formB : ProjectForm :=
  ⟨"T", "D", "data:image/png;base64,AAA=", "https://live", "https://git", "web"⟩

/-- A form whose image is an already-hosted URL (no regex match). -/
def formN : ProjectForm :=
  ⟨"T", "D", "https://already-hosted/z.png", "https://live", "https://git", "web"⟩

/-- Field `k` of the `input` object of an issued request
(`undefined` when absent). -/
def inputLookup (req : IssuedRequest) (k : String) : Option JVal :=
  match lookupJ req.vars "input" with
  | some (JVal.jobj fs) => lookupJ fs k
  | _ => none

/-- The `input.image` values of the requests an operation issued. -/
def submittedImage (r : OpResult) : List (Option JVal) :=
  r.issued.map (fun req => inputLookup req "image")

/-! ### Claims -/

/-- C4: for every call of `fetchAllProjects` whose category argument is the
nullish value (`null`/`undefined`, both embedded as `none`), the transmitted
variables carry `category = ""`; in particular `fetchAllProjects(null, null)`
transmits `{category: "", endcursor: null}`. -/
theorem C4_fetchAllProjects_nullish_category_transmits_empty
    (env : Env) (c : GraphQLClient) (endcursor : Option String) :
    (fetchAllProjects env c none endcursor).issued.map IssuedRequest.vars
        = [[("category", JVal.jstr ""), ("endcursor", jOfOpt endcursor)]]
    ∧ (fetchAllProjects env c none none).issued.map IssuedRequest.vars
        = [[("category", JVal.jstr ""), ("endcursor", JVal.jnull)]] := by
  constructor <;>
    simp [fetchAllProjects, makeGraphQLRequest_issued, JVal.isNull, jOfOpt]

/-- C8: whenever the upload response has no truthy `url`, `createNewProject`
resolves with `undefined` (it does not reject), issues no mutation, and
leaves the client — in particular its header set — exactly as it was. -/
theorem C8_createNewProject_no_url_resolves_undefined
    (env : Env) (c : GraphQLClient) (form : ProjectForm) (creatorId token : String)
    (resp : JVal) (hresp : env.upload form.image = Except.ok resp)
    (hurl : jtruthy (jget resp "url") = false) :
    createNewProject env c form creatorId token
      = ⟨c, [form.image], [], Except.ok none⟩ := by
  unfold createNewProject
  rw [hresp]
  simp [hurl]

theorem C8_createNewProject_no_url_resolves_undefined_witness :
    createNewProject envW clientStart formB "creator1" "tok"
      = ⟨clientStart, [formB.image], [], Except.ok none⟩ :=
  C8_createNewProject_no_url_resolves_undefined envW clientStart formB "creator1" "tok"
    (JVal.jobj []) rfl rfl

/-- C1: evaluated at the failing input — a form whose upload answers `{}` —
`createNewProject` resolves with `undefined` and issues no create mutation;
it never rejects, although its own declared return type
(`Promise<CreateProjectMutationResponse>`) and the spec's testable property
require the call to fail. -/
theorem C1_createNewProject_no_url_silently_resolves :
    (createNewProject envW clientStart formB "creator1" "tok").outcome = Except.ok none
    ∧ (createNewProject envW clientStart formB "creator1" "tok").issued = [] := by
  exact ⟨rfl, rfl⟩

/-- C2 counterexample: starting from a fresh client, `fetchAllProjects`
attaches `x-api-key`; a subsequent `deleteProject` attaches `Authorization`
without removing it, so the request of `deleteProject` goes out with both
header kinds present — not "exactly one, never both". -/
theorem C2_counterexample_request_carries_both_header_kinds :
    (deleteProject envW (fetchAllProjects envW clientStart none none).client "p1" "tok").issued.map
        (fun req => (hasKey req.headers "x-api-key", hasKey req.headers "Authorization"))
      = [(true, true)] := by
  rfl

/-- C2 (amended): at the moment each gateway operation issues its request,
the transport's header set carries the header the operation itself set —
`x-api-key` with the API key for the anonymous reads/creates, `Authorization:
Bearer token` for the authenticated writes — but a header of the other kind
attached by an earlier call may persist alongside it. -/
theorem C2_amended_each_request_carries_own_header
    (env : Env) (c : GraphQLClient) (cat cur : Option String) (form : ProjectForm)
    (creatorId tok pid delId detId name email avatar uid mail : String)
    (last : Option Nat) :
    (∀ req ∈ (fetchAllProjects env c cat cur).issued,
      findVal req.headers "x-api-key" = some apiKey)
    ∧ (∀ req ∈ (createNewProject env c form creatorId tok).issued,
      findVal req.headers "Authorization" = some ("Bearer " ++ tok))
    ∧ (∀ req ∈ (updateProject env c form pid tok).issued,
      findVal req.headers "Authorization" = some ("Bearer " ++ tok))
    ∧ (∀ req ∈ (deleteProject env c delId tok).issued,
      findVal req.headers "Authorization" = some ("Bearer " ++ tok))
    ∧ (∀ req ∈ (getProjectDetails env c detId).issued,
      findVal req.headers "x-api-key" = some apiKey)
    ∧ (∀ req ∈ (createUser env c name email avatar).issued,
      findVal req.headers "x-api-key" = some apiKey)
    ∧ (∀ req ∈ (getUserProjects env c uid last).issued,
      findVal req.headers "x-api-key" = some apiKey)
    ∧ (∀ req ∈ (getUser env c mail).issued,
      findVal req.headers "x-api-key" = some apiKey) := by
  refine ⟨?_, ?_, ?_, ?_, ?_, ?_, ?_, ?_⟩
  · intro req hreq
    simp only [fetchAllProjects, makeGraphQLRequest_issued, List.mem_singleton] at hreq
    subst hreq
    exact findVal_setHeaderEntries_self _ _ _
  · intro req hreq
    unfold createNewProject at hreq
    cases h : env.upload form.image with
    | error e => rw [h] at hreq; simp at hreq
    | ok imageUrl =>
      rw [h] at hreq
      by_cases hu : jtruthy (jget imageUrl "url")
      · simp only [hu, if_true, makeGraphQLRequest_issued, List.mem_singleton] at hreq
        subst hreq
        exact findVal_setHeaderEntries_self _ _ _
      · simp only [hu, Bool.false_eq_true, if_false, List.not_mem_nil] at hreq
  · intro req hreq
    unfold updateProject at hreq
    by_cases hb : isBase64DataURL form.image
    · simp only [hb, if_true] at hreq
      cases h : env.upload form.image with
      | error e => rw [h] at hreq; simp at hreq
      | ok imageUrl =>
        rw [h] at hreq
        simp only [makeGraphQLRequest_issued, List.mem_singleton] at hreq
        subst hreq
        exact findVal_setHeaderEntries_self _ _ _
    · simp only [hb, Bool.false_eq_true, if_false, makeGraphQLRequest_issued,
        List.mem_singleton] at hreq
      subst hreq
      exact findVal_setHeaderEntries_self _ _ _
  · intro req hreq
    simp only [deleteProject, makeGraphQLRequest_issued, List.mem_singleton] at hreq
    subst hreq
    exact findVal_setHeaderEntries_self _ _ _
  · intro req hreq
    simp only [getProjectDetails, makeGraphQLRequest_issued, List.mem_singleton] at hreq
    subst hreq
    exact findVal_setHeaderEntries_self _ _ _
  · intro req hreq
    simp only [createUser, makeGraphQLRequest_issued, List.mem_singleton] at hreq
    subst hreq
    exact findVal_setHeaderEntries_self _ _ _
  · intro req hreq
    simp only [getUserProjects, makeGraphQLRequest_issued, List.mem_singleton] at hreq
    subst hreq
    exact findVal_setHeaderEntries_self _ _ _
  · intro req hreq
    simp only [getUser, makeGraphQLRequest_issued, List.mem_singleton] at hreq
    subst hreq
    exact findVal_setHeaderEntries_self _ _ _

theorem C2_amended_each_request_carries_own_header_witness :
    findVal (setHeaderEntries clientStart.headers "Authorization" ("Bearer " ++ "tok"))
        "Authorization" = some ("Bearer " ++ "tok") :=
  (C2_amended_each_request_carries_own_header envW clientStart none none formN
      "creator1" "tok" "p1" "p1" "p1" "n" "e" "a" "u" "m" none).2.2.2.1
    ⟨deleteProjectMutation, fixCategory [("id", JVal.jstr "p1")],
      setHeaderEntries clientStart.headers "Authorization" ("Bearer " ++ "tok")⟩
    (List.Mem.head [])

/-- C5 counterexample: after `fetchAllProjects` has attached `x-api-key`, an
`updateProject` call leaves that entry in place and merely adds
`Authorization`, so the final header set is the merge of the two calls — the
call did not overwrite the transport's entire header set. -/
theorem C5_counterexample_prior_header_survives_update :
    (updateProject envW (fetchAllProjects envW clientStart none none).client
        formN "p1" "tok").client.headers
      = [("x-api-key", "letmein"), ("Authorization", "Bearer tok")] := by
  rfl

/-- C5 (amended): an authenticated or keyed gateway call overwrites only the
entry for its own header key on the shared transport; entries under other
keys left by earlier calls persist into the header set it leaves behind — the
new header is merged in, not a wholesale replacement. -/
theorem C5_amended_setHeader_merges_into_prior_headers
    (env : Env) (c : GraphQLClient) (cat cur : Option String) (form : ProjectForm)
    (pid tok : String) :
    findVal (fetchAllProjects env c cat cur).client.headers "x-api-key" = some apiKey
    ∧ (∀ p ∈ c.headers, p.1 ≠ "x-api-key" →
        p ∈ (fetchAllProjects env c cat cur).client.headers)
    ∧ (∀ p ∈ c.headers, p.1 ≠ "Authorization" →
        p ∈ (updateProject env c form pid tok).client.headers) := by
  refine ⟨?_, ?_, ?_⟩
  · simp only [fetchAllProjects, makeGraphQLRequest_client, GraphQLClient.setHeader]
    exact findVal_setHeaderEntries_self _ _ _
  · intro p hp hne
    simp only [fetchAllProjects, makeGraphQLRequest_client, GraphQLClient.setHeader]
    exact mem_setHeaderEntries_of_ne _ _ _ _ hp hne
  · intro p hp hne
    unfold updateProject
    by_cases hb : isBase64DataURL form.image
    · simp only [hb, if_true]
      cases h : env.upload form.image with
      | error e => exact hp
      | ok imageUrl =>
        simp only [makeGraphQLRequest_client, GraphQLClient.setHeader]
        exact mem_setHeaderEntries_of_ne _ _ _ _ hp hne
    · simp only [hb, Bool.false_eq_true, if_false, makeGraphQLRequest_client,
        GraphQLClient.setHeader]
      exact mem_setHeaderEntries_of_ne _ _ _ _ hp hne

theorem C5_amended_setHeader_merges_into_prior_headers_witness :
    ("x-api-key", "stale") ∈
      (updateProject envW ⟨apiUrl, [("x-api-key", "stale")]⟩ formN "p1" "tok").client.headers :=
  (C5_amended_setHeader_merges_into_prior_headers envW ⟨apiUrl, [("x-api-key", "stale")]⟩
      none none formN "p1" "tok").2.2
    ("x-api-key", "stale") (List.Mem.head []) (by decide)

/-- C3 counterexample: with a form image matching the base64 data-URL pattern
but an upload endpoint answering `{}` (no `url`), `updateProject` does call
the upload helper yet submits the update with `input.image` still equal to
the original data URL — the image field is not replaced by a freshly
uploaded URL even though the pattern matches, so the stated "if and only if"
fails. -/
theorem C3_counterexample_match_without_url_keeps_original_image :
    isBase64DataURL formB.image = true
    ∧ (updateProject envW clientStart formB "p1" "tok").uploads = [formB.image]
    ∧ submittedImage (updateProject envW clientStart formB "p1" "tok")
        = [some (JVal.jstr formB.image)] := by
  exact ⟨by decide, rfl, rfl⟩

/-- C3 (amended): `updateProject` submits its update with the image field
replaced by the freshly uploaded URL if and only if `form.image` matches the
base64 data-URL pattern and the upload response carries a truthy `url`; when
the pattern does not match, the image field passes through unchanged and no
upload call is made, and when it matches but the response's `url` is not
truthy, the original image value is submitted after an upload call. -/
theorem C3_amended_image_replaced_iff_match_and_truthy_url
    (env : Env) (c : GraphQLClient) (form : ProjectForm) (pid tok : String) :
    (isBase64DataURL form.image = false →
      (updateProject env c form pid tok).uploads = []
      ∧ submittedImage (updateProject env c form pid tok) = [some (JVal.jstr form.image)])
    ∧ (∀ resp, isBase64DataURL form.image = true →
        env.upload form.image = Except.ok resp →
        (updateProject env c form pid tok).uploads = [form.image]
        ∧ (jtruthy (jget resp "url") = true →
            submittedImage (updateProject env c form pid tok) = [jget resp "url"])
        ∧ (jtruthy (jget resp "url") = false →
            submittedImage (updateProject env c form pid tok)
              = [some (JVal.jstr form.image)])) := by
  constructor
  · intro hb
    unfold updateProject
    simp only [hb, Bool.false_eq_true, if_false]
    constructor
    · simp
    · simp [submittedImage, inputLookup, makeGraphQLRequest_issued, JVal.isNull,
        ProjectForm.toFields, lookupJ]
  · intro resp hb hup
    unfold updateProject
    simp only [hb, if_true, hup]
    refine ⟨by simp, ?_, ?_⟩
    · intro hu
      simp only [hu, if_true]
      have himg : lookupJ form.toFields "image" ≠ none := by
        simp [ProjectForm.toFields, lookupJ]
      cases hgu : jget resp "url" with
      | none => rw [hgu] at hu; simp [jtruthy] at hu
      | some v =>
        have hset := lookupJ_setField_self form.toFields "image" v himg
        simp [submittedImage, inputLookup, makeGraphQLRequest_issued, lookupJ, hset]
    · intro hu
      simp only [hu, Bool.false_eq_true, if_false]
      simp [submittedImage, inputLookup, makeGraphQLRequest_issued,
        ProjectForm.toFields, lookupJ]

theorem C3_amended_image_replaced_iff_match_and_truthy_url_witness :
    (updateProject envW clientStart formN "p1" "tok").uploads = []
    ∧ submittedImage (updateProject envW clientStart formN "p1" "tok")
        = [some (JVal.jstr formN.image)] :=
  (C3_amended_image_replaced_iff_match_and_truthy_url envW clientStart formN "p1" "tok").1
    (by decide)

/-- C7: when `form.image` is `"data:image/png;base64,AAA="` and the upload
helper answers `{url: "https://x/y.png"}`, `updateProject` submits its update
mutation with `input.image` equal to `"https://x/y.png"`. -/
theorem C7_updateProject_submits_uploaded_url
    (env : Env) (c : GraphQLClient) (form : ProjectForm) (pid tok : String)
    (himg : form.image = "data:image/png;base64,AAA=")
    (hup : env.upload form.image
      = Except.ok (JVal.jobj [("url", JVal.jstr "https://x/y.png")])) :
    submittedImage (updateProject env c form pid tok)
      = [some (JVal.jstr "https://x/y.png")] := by
  have hb : isBase64DataURL form.image = true := by rw [himg]; decide
  unfold updateProject
  simp only [hb, if_true, hup]
  simp [submittedImage, inputLookup, makeGraphQLRequest_issued, JVal.isNull,
    ProjectForm.toFields, setField, lookupJ, jtruthy, JVal.truthy, jget]

theorem C7_updateProject_submits_uploaded_url_witness :
    submittedImage (updateProject envU clientStart formB "p1" "tok")
      = [some (JVal.jstr "https://x/y.png")] :=
  C7_updateProject_submits_uploaded_url envU clientStart formB "p1" "tok" rfl rfl

/-- C10: when `form.image` matches the base64 data-URL pattern but the upload
response has no truthy `url`, `updateProject` still submits its update
mutation, and the submitted `input.image` is the original base64 data URL. -/
theorem C10_updateProject_no_url_submits_original_image
    (env : Env) (c : GraphQLClient) (form : ProjectForm) (pid tok : String) (resp : JVal)
    (hb : isBase64DataURL form.image = true)
    (hup : env.upload form.image = Except.ok resp)
    (hurl : jtruthy (jget resp "url") = false) :
    (updateProject env c form pid tok).issued.map IssuedRequest.query
        = [updateProjectMutation]
    ∧ submittedImage (updateProject env c form pid tok)
        = [some (JVal.jstr form.image)] := by
  unfold updateProject
  simp only [hb, if_true, hup, hurl, Bool.false_eq_true, if_false]
  constructor
  · simp [makeGraphQLRequest_issued]
  · simp [submittedImage, inputLookup, makeGraphQLRequest_issued,
      ProjectForm.toFields, lookupJ]

theorem C10_updateProject_no_url_submits_original_image_witness :
    (updateProject envW clientStart formB "p1" "tok").issued.map IssuedRequest.query
        = [updateProjectMutation]
    ∧ submittedImage (updateProject envW clientStart formB "p1" "tok")
        = [some (JVal.jstr formB.image)] :=
  C10_updateProject_no_url_submits_original_image envW clientStart formB "p1" "tok"
    (JVal.jobj []) (by decide) rfl rfl

/-- C9: the input object submitted by `updateProject` agrees with the spread
of the caller's form on every field other than `image`: looking up any other
key in the submitted input yields exactly the form's value for that key. -/
theorem C9_updateProject_input_agrees_off_image
    (env : Env) (c : GraphQLClient) (form : ProjectForm) (pid tok : String)
    (req : IssuedRequest) (hreq : req ∈ (updateProject env c form pid tok).issued)
    (k : String) (hk : k ≠ "image") :
    inputLookup req k = lookupJ form.toFields k := by
  unfold updateProject at hreq
  by_cases hb : isBase64DataURL form.image
  · simp only [hb, if_true] at hreq
    cases h : env.upload form.image with
    | error e => rw [h] at hreq; simp at hreq
    | ok imageUrl =>
      rw [h] at hreq
      by_cases hu : jtruthy (jget imageUrl "url")
      · simp only [hu, if_true, makeGraphQLRequest_issued, List.mem_singleton] at hreq
        subst hreq
        simp only [inputLookup, fixCategory_cons, fixCategory_nil, JVal.isNull]
        simp only [lookupJ, if_neg (by decide : ¬ ("id" : String) = "category"),
          if_neg (by decide : ¬ ("input" : String) = "category"),
          if_neg (by decide : ¬ ("id" : String) = "input"), if_pos rfl]
        exact lookupJ_setField_ne _ _ _ _ hk
      · simp only [hu, Bool.false_eq_true, if_false, makeGraphQLRequest_issued,
          List.mem_singleton] at hreq
        subst hreq
        simp [inputLookup, lookupJ]
  · simp only [hb, Bool.false_eq_true, if_false, makeGraphQLRequest_issued,
      List.mem_singleton] at hreq
    subst hreq
    simp [inputLookup, lookupJ]

theorem C9_updateProject_input_agrees_off_image_witness :
    inputLookup
        ⟨updateProjectMutation,
          fixCategory [("id", JVal.jstr "p1"), ("input", JVal.jobj formN.toFields)],
          setHeaderEntries clientStart.headers "Authorization" ("Bearer " ++ "tok")⟩
        "title"
      = lookupJ formN.toFields "title" :=
  C9_updateProject_input_agrees_off_image envW clientStart formN "p1" "tok" _
    (List.Mem.head []) "title" (by decide)

/-- C6: each gateway operation settles exactly as its one network round trip
does: a throwing request or upload rejects the operation with that same
error, a successful request resolves it with the deserialized `data`
payload; no retry and no substitution occurs in between. -/
theorem C6_operations_propagate_failure_and_return_payload
    (env : Env) (c : GraphQLClient) (cat cur : Option String)
    (delId detId name email avatar uid mail : String) (last : Option Nat)
    (form : ProjectForm) (creatorId pid tok : String) :
    (fetchAllProjects env c cat cur).outcome
        = reqOutcome env projectsQuery
            [("category", JVal.jstr (cat.getD "")), ("endcursor", jOfOpt cur)]
    ∧ (deleteProject env c delId tok).outcome
        = reqOutcome env deleteProjectMutation [("id", JVal.jstr delId)]
    ∧ (getProjectDetails env c detId).outcome
        = reqOutcome env getProjectByIdQuery [("id", JVal.jstr detId)]
    ∧ (createUser env c name email avatar).outcome
        = reqOutcome env createUserMutation
            [("input", JVal.jobj [("name", JVal.jstr name), ("email", JVal.jstr email),
              ("avatarUrl", JVal.jstr avatar)])]
    ∧ (getUserProjects env c uid last).outcome
        = reqOutcome env getProjectsOfUserQuery
            [("id", JVal.jstr uid), ("last", jOfOptNum last)]
    ∧ (getUser env c mail).outcome = reqOutcome env getUserQuery [("email", JVal.jstr mail)]
    ∧ (∀ e, env.upload form.image = Except.error e →
        (createNewProject env c form creatorId tok).outcome = Except.error e
        ∧ (isBase64DataURL form.image = true →
            (updateProject env c form pid tok).outcome = Except.error e))
    ∧ (∀ req ∈ (updateProject env c form pid tok).issued,
        (updateProject env c form pid tok).outcome = reqOutcome env req.query req.vars)
    ∧ (∀ req ∈ (createNewProject env c form creatorId tok).issued,
        (createNewProject env c form creatorId tok).outcome
          = reqOutcome env req.query req.vars) := by
  refine ⟨?_, ?_, ?_, ?_, ?_, ?_, ?_, ?_, ?_⟩
  · simp [fetchAllProjects, makeGraphQLRequest_outcome, JVal.isNull]
  · simp [deleteProject, makeGraphQLRequest_outcome, JVal.isNull]
  · simp [getProjectDetails, makeGraphQLRequest_outcome, JVal.isNull]
  · simp [createUser, makeGraphQLRequest_outcome, JVal.isNull]
  · simp [getUserProjects, makeGraphQLRequest_outcome, JVal.isNull]
  · simp [getUser, makeGraphQLRequest_outcome, JVal.isNull]
  · intro e he
    constructor
    · unfold createNewProject
      rw [he]
    · intro hb
      unfold updateProject
      simp only [hb, if_true]
      rw [he]
  · intro req hreq
    unfold updateProject at hreq ⊢
    by_cases hb : isBase64DataURL form.image
    · simp only [hb, if_true] at hreq ⊢
      cases h : env.upload form.image with
      | error e => rw [h] at hreq; simp at hreq
      | ok imageUrl =>
        rw [h] at hreq
        simp only [makeGraphQLRequest_issued, List.mem_singleton] at hreq
        subst hreq
        simp [makeGraphQLRequest_outcome]
    · simp only [hb, Bool.false_eq_true, if_false, makeGraphQLRequest_issued,
        List.mem_singleton] at hreq
      simp only [hb, Bool.false_eq_true, if_false]
      subst hreq
      simp [makeGraphQLRequest_outcome]
  · intro req hreq
    unfold createNewProject at hreq ⊢
    cases h : env.upload form.image with
    | error e => rw [h] at hreq; simp at hreq
    | ok imageUrl =>
      rw [h] at hreq
      by_cases hu : jtruthy (jget imageUrl "url")
      · simp only [hu, if_true, makeGraphQLRequest_issued, List.mem_singleton] at hreq
        simp only [hu, if_true]
        subst hreq
        simp [makeGraphQLRequest_outcome]
      · simp only [hu, Bool.false_eq_true, if_false, List.not_mem_nil] at hreq

theorem C6_operations_propagate_failure_and_return_payload_witness :
    (createNewProject envE clientStart formB "creator1" "tok").outcome
      = Except.error "network down" :=
  ((C6_operations_propagate_failure_and_return_payload envE clientStart none none
      "p1" "p1" "n" "e" "a" "u" "m" none formB "creator1" "p1" "tok").2.2.2.2.2.2.1
    "network down" rfl).1

end Flexibble
